import Mathlib

/-!
# Verification of the adaptive S3 multipart copy engine

Shallow embedding of the pure planning/tuning functions of `src/auto.rs`,
the region/checksum/verification helpers of `src/app.rs` and
`src/s3_utils.rs`, and the multipart-upload lifecycle phase of
`S3CopyApp::copy_file` (`src/app.rs`).

Modelling conventions:
* Rust `i64` byte counts are modelled as `ℤ`.  All divisions performed by
  the source act on non-negative operands (sizes are guarded by `<= 0`
  early returns, divisors are positive constants or counts), where Rust's
  truncating `/` agrees with Lean's `Int./` (Euclidean division); theorems
  touching a division carry the corresponding positivity hypotheses.
* Rust `usize` concurrency values are modelled as `ℕ`; `saturating_sub`
  is `Nat.sub`.
* Rust `f64` measurements (`avg_part_seconds`, `throughput_mib_s`,
  `measured_mib_s`) are modelled as `ℚ`: the source only ever compares
  them against decimal constants and averages sums of quotients, so every
  finite float value is represented exactly and the branch structure is
  preserved.
* Fallible store operations are oracle functions returning
  `Except String _`; `anyhow` error contexts are collapsed to the message
  strings that decide control flow.
-/

namespace S3LargeCopy

/-- `AutoProfile` from `src/auto.rs`. -/
inductive AutoProfile
  | Balanced
  | Aggressive
  | Conservative
  | CostEfficient
  deriving DecidableEq, Repr

/-- `VerifyIntegrity` from `src/auto.rs`. -/
inductive VerifyIntegrity
  | Off
  | Etag
  | Checksum
  deriving DecidableEq, Repr

/-- `AutoPlan` from `src/auto.rs` (sizes in bytes as `i64`, concurrency as
`usize`). -/
structure AutoPlan where
  initial_part_size : ℤ
  initial_concurrency : ℕ
  max_concurrency : ℕ
  probe_parts : ℕ
  deriving DecidableEq, Repr

/-- `WindowMetrics` from `src/auto.rs`; the two `f64` fields are modelled
as exact rationals. -/
structure WindowMetrics where
  avg_part_seconds : ℚ
  throughput_mib_s : ℚ
  had_retryable_pressure : Bool
  deriving DecidableEq, Repr

/-- `const MIB: i64 = 1024 * 1024`. -/
def MIB : ℤ := 1024 * 1024

/-- `const GIB: i64 = 1024 * 1024 * 1024`. -/
def GIB : ℤ := 1024 * 1024 * 1024

/-- `const S3_MIN_PART_SIZE: i64 = 5 * MIB`. -/
def S3_MIN_PART_SIZE : ℤ := 5 * MIB

/-- `const S3_MAX_PART_SIZE: i64 = 5 * GIB`. -/
def S3_MAX_PART_SIZE : ℤ := 5 * GIB

/-- `select_initial_part_size` from `src/auto.rs`. -/
def select_initial_part_size (file_size_bytes : ℤ) (profile : AutoProfile) : ℤ :=
  let hundred_gb : ℤ := 100 * 1024 * 1024 * 1024
  let one_tb : ℤ := 1024 * 1024 * 1024 * 1024
  let ten_tb : ℤ := 10 * 1024 * 1024 * 1024 * 1024
  match profile with
  | .Aggressive =>
    if file_size_bytes < hundred_gb then 64 * 1024 * 1024
    else if file_size_bytes < one_tb then 128 * 1024 * 1024
    else if file_size_bytes < ten_tb then 256 * 1024 * 1024
    else 512 * 1024 * 1024
  | .Balanced =>
    if file_size_bytes < hundred_gb then 128 * 1024 * 1024
    else if file_size_bytes < one_tb then 256 * 1024 * 1024
    else if file_size_bytes < ten_tb then 512 * 1024 * 1024
    else 1024 * 1024 * 1024
  | .Conservative =>
    if file_size_bytes < hundred_gb then 256 * 1024 * 1024
    else if file_size_bytes < one_tb then 512 * 1024 * 1024
    else 1024 * 1024 * 1024
  | .CostEfficient =>
    if file_size_bytes < hundred_gb then 1024 * 1024 * 1024
    else if file_size_bytes < one_tb then 2 * GIB
    else if file_size_bytes < ten_tb then 3 * GIB
    else 4 * GIB

/-- `clamp_part_size_for_limit` from `src/auto.rs`. -/
def clamp_part_size_for_limit (file_size_bytes desired_part_size max_parts : ℤ) : ℤ :=
  if file_size_bytes ≤ 0 then desired_part_size
  else
    let min_size := S3_MIN_PART_SIZE
    let desired_part_size := max desired_part_size min_size
    let required_size := max ((file_size_bytes + max_parts - 1) / max_parts) min_size
    let required_size_mib := ((required_size + MIB - 1) / MIB) * MIB
    min (max desired_part_size required_size_mib) S3_MAX_PART_SIZE

/-- `optimize_part_size_for_cost` from `src/auto.rs`. -/
def optimize_part_size_for_cost (file_size_bytes candidate_part_size : ℤ)
    (profile : AutoProfile) (same_region : Bool) : ℤ :=
  if file_size_bytes ≤ 0 then candidate_part_size
  else
    let target_max_parts : ℤ :=
      match profile, same_region with
      | .Aggressive, true => 3500
      | .Aggressive, false => 2800
      | .Balanced, true => 2200
      | .Balanced, false => 1500
      | .Conservative, true => 1200
      | .Conservative, false => 800
      | .CostEfficient, true => 500
      | .CostEfficient, false => 350
    let cost_floor :=
      min (max ((file_size_bytes + target_max_parts - 1) / target_max_parts)
        S3_MIN_PART_SIZE) S3_MAX_PART_SIZE
    let cost_floor_mib := ((cost_floor + MIB - 1) / MIB) * MIB
    min (max candidate_part_size cost_floor_mib) S3_MAX_PART_SIZE

/-- `tune_part_size_from_probe` from `src/auto.rs` (`measured_mib_s` as an
exact rational). -/
def tune_part_size_from_probe (profile : AutoProfile)
    (remaining_bytes current_part_size : ℤ) (measured_mib_s : ℚ) : ℤ :=
  if remaining_bytes ≤ 0 then current_part_size
  else
    let tuned :=
      if measured_mib_s ≥ 1200 then min (current_part_size * 2) (1024 * 1024 * 1024)
      else if profile = .CostEfficient ∧ measured_mib_s ≤ 120 then
        max current_part_size (1024 * 1024 * 1024)
      else if measured_mib_s ≤ 120 then max (current_part_size / 2) (64 * 1024 * 1024)
      else current_part_size
    clamp_part_size_for_limit remaining_bytes tuned 9500

/-- `recommended_initial_concurrency` from `src/auto.rs`. -/
def recommended_initial_concurrency (profile : AutoProfile) (same_region : Bool) : ℕ :=
  match profile, same_region with
  | .Aggressive, true => 48
  | .Aggressive, false => 28
  | .Balanced, true => 24
  | .Balanced, false => 16
  | .Conservative, true => 12
  | .Conservative, false => 8
  | .CostEfficient, true => 8
  | .CostEfficient, false => 6

/-- `recommended_max_concurrency` from `src/auto.rs`. -/
def recommended_max_concurrency (profile : AutoProfile) (same_region : Bool) : ℕ :=
  match profile, same_region with
  | .Aggressive, true => 96
  | .Aggressive, false => 64
  | .Balanced, true => 64
  | .Balanced, false => 40
  | .Conservative, true => 32
  | .Conservative, false => 20
  | .CostEfficient, true => 16
  | .CostEfficient, false => 12

/-- `probe_part_count` from `src/auto.rs`. -/
def probe_part_count (profile : AutoProfile) : ℕ :=
  match profile with
  | .Aggressive => 5
  | .Balanced => 4
  | .Conservative => 3
  | .CostEfficient => 2

/-- `build_auto_plan` from `src/auto.rs`. -/
def build_auto_plan (profile : AutoProfile) (file_size_bytes : ℤ)
    (same_region : Bool) (concurrency_cap : ℕ) : AutoPlan :=
  let base_part_size := select_initial_part_size file_size_bytes profile
  let initial_part_size :=
    optimize_part_size_for_cost file_size_bytes base_part_size profile same_region
  let region_start := recommended_initial_concurrency profile same_region
  let region_max := recommended_max_concurrency profile same_region
  let hard_cap := max concurrency_cap 1
  let max_concurrency := max (min region_max hard_cap) 1
  let initial_concurrency := max (min region_start max_concurrency) 1
  { initial_part_size := initial_part_size
    initial_concurrency := initial_concurrency
    max_concurrency := max_concurrency
    probe_parts := probe_part_count profile }

/-- `adapt_concurrency` from `src/auto.rs` (`saturating_sub` is `Nat.sub`). -/
def adapt_concurrency (profile : AutoProfile) (current min_concurrency max_concurrency : ℕ)
    (metrics : WindowMetrics) : ℕ :=
  let step : ℕ :=
    match profile with
    | .Aggressive => 8
    | .Balanced => 4
    | .Conservative => 2
    | .CostEfficient => 1
  if metrics.had_retryable_pressure then max (current - step) min_concurrency
  else if metrics.avg_part_seconds < 8 ∧ metrics.throughput_mib_s > 0 then
    min (current + step) max_concurrency
  else if metrics.avg_part_seconds > 25 then max (current - step) min_concurrency
  else current

/-- `is_instant_copy` from `src/auto.rs`. -/
def is_instant_copy (auto : Bool) (file_size_bytes : ℤ) : Bool :=
  auto && decide (file_size_bytes < 5 * 1024 * 1024 * 1024)


/-! ## Spec-side reference definitions (quoted from the specification) -/

/-- Reference concurrency adapter, written from the spec's words for C4:
step size per profile, then the four ordered rules
`max(min, current - step)` / `min(max, current + step)` /
`max(min, current - step)` / `current`. -/
def reference_adapt (profile : AutoProfile)
    (current min_concurrency max_concurrency : ℕ) (metrics : WindowMetrics) : ℕ :=
  let step : ℕ :=
    match profile with
    | .Aggressive => 8
    | .Balanced => 4
    | .Conservative => 2
    | .CostEfficient => 1
  if metrics.had_retryable_pressure then max min_concurrency (current - step)
  else if metrics.avg_part_seconds < 8 ∧ metrics.throughput_mib_s > 0 then
    min max_concurrency (current + step)
  else if metrics.avg_part_seconds > 25 then max min_concurrency (current - step)
  else current

/-! ## C4 -/

/-- C4: for every profile, current concurrency, min, max and window metrics,
`adapt_concurrency` equals the ordered rule-based reference with steps
8/4/2/1 for Aggressive/Balanced/Conservative/CostEfficient. -/
theorem c4_adapt_concurrency_eq_reference (profile : AutoProfile)
    (current min_concurrency max_concurrency : ℕ) (metrics : WindowMetrics) :
    adapt_concurrency profile current min_concurrency max_concurrency metrics =
      reference_adapt profile current min_concurrency max_concurrency metrics := by
  unfold adapt_concurrency reference_adapt
  cases profile <;> dsimp only <;> split_ifs <;> omega

/-! ## C5 -/

/-- C5 (amended): whenever `min ≤ current ≤ max` — which holds for every
call the engine makes once `concurrency_cap ≥ 4` — the adapted concurrency
satisfies `min ≤ next ≤ max`, and under retryable pressure it never
exceeds `current`. -/
theorem c5_adapt_concurrency_bounds (profile : AutoProfile)
    (current min_concurrency max_concurrency : ℕ) (metrics : WindowMetrics)
    (hmin : min_concurrency ≤ current) (hmax : current ≤ max_concurrency) :
    min_concurrency ≤
        adapt_concurrency profile current min_concurrency max_concurrency metrics ∧
      adapt_concurrency profile current min_concurrency max_concurrency metrics ≤
        max_concurrency ∧
      (metrics.had_retryable_pressure = true →
        adapt_concurrency profile current min_concurrency max_concurrency metrics ≤
          current) := by
  unfold adapt_concurrency
  cases profile <;> dsimp only <;> split_ifs with h1 h2 h3 <;>
    refine ⟨?_, ?_, fun hp => ?_⟩ <;>
    first
      | exact absurd hp h1
      | (simp only [le_min_iff, min_le_iff, le_max_iff, max_le_iff] <;> omega)
      | omega

/-- C5 witness: the amended bounds at a concrete engine-style call. -/
theorem c5_adapt_concurrency_bounds_witness :
    4 ≤ adapt_concurrency .Balanced 20 4 64 ⟨6, 400, false⟩ ∧
      adapt_concurrency .Balanced 20 4 64 ⟨6, 400, false⟩ ≤ 64 ∧
      ((⟨6, 400, false⟩ : WindowMetrics).had_retryable_pressure = true →
        adapt_concurrency .Balanced 20 4 64 ⟨6, 400, false⟩ ≤ 20) :=
  c5_adapt_concurrency_bounds .Balanced 20 4 64 ⟨6, 400, false⟩
    (by decide) (by decide)

/-- C5 counterexample: as stated (for every current/min/max) the claim
fails.  With `current = 1, min = 4, max = 1` — reachable by the engine
when `concurrency_cap = 1`, since it always passes `min = 4` — the result
1 is below `min`; and under pressure with `min = 10 > current = 2` the
result 10 strictly increases past `current`. -/
theorem c5_counterexample :
    ¬ (4 ≤ adapt_concurrency .Balanced 1 4 1 ⟨6, 400, false⟩) ∧
      2 < adapt_concurrency .Balanced 2 10 64 ⟨30, 100, true⟩ := by
  decide

/-! ## C8 -/

/-- C8 (amended): for every profile, file size and same_region flag, and
every `concurrency_cap ≥ 1`, the plan satisfies
`5 MiB ≤ initial_part_size ≤ 5 GiB` and
`1 ≤ initial_concurrency ≤ max_concurrency ≤ concurrency_cap`. -/
theorem c8_build_auto_plan_invariants (profile : AutoProfile) (file_size_bytes : ℤ)
    (same_region : Bool) (concurrency_cap : ℕ) (hcap : 1 ≤ concurrency_cap) :
    S3_MIN_PART_SIZE ≤
        (build_auto_plan profile file_size_bytes same_region concurrency_cap).initial_part_size ∧
      (build_auto_plan profile file_size_bytes same_region concurrency_cap).initial_part_size ≤
        S3_MAX_PART_SIZE ∧
      1 ≤ (build_auto_plan profile file_size_bytes same_region concurrency_cap).initial_concurrency ∧
      (build_auto_plan profile file_size_bytes same_region concurrency_cap).initial_concurrency ≤
        (build_auto_plan profile file_size_bytes same_region concurrency_cap).max_concurrency ∧
      (build_auto_plan profile file_size_bytes same_region concurrency_cap).max_concurrency ≤
        concurrency_cap := by
  cases profile <;> cases same_region <;>
    simp only [build_auto_plan, select_initial_part_size, optimize_part_size_for_cost,
      recommended_initial_concurrency, recommended_max_concurrency,
      S3_MIN_PART_SIZE, S3_MAX_PART_SIZE, MIB, GIB] <;>
    split_ifs <;> constructor <;> omega

/-- C8 witness: the invariants at a concrete plan. -/
theorem c8_build_auto_plan_invariants_witness :
    S3_MIN_PART_SIZE ≤ (build_auto_plan .Balanced 1000000 true 50).initial_part_size ∧
      (build_auto_plan .Balanced 1000000 true 50).initial_part_size ≤ S3_MAX_PART_SIZE ∧
      1 ≤ (build_auto_plan .Balanced 1000000 true 50).initial_concurrency ∧
      (build_auto_plan .Balanced 1000000 true 50).initial_concurrency ≤
        (build_auto_plan .Balanced 1000000 true 50).max_concurrency ∧
      (build_auto_plan .Balanced 1000000 true 50).max_concurrency ≤ 50 :=
  c8_build_auto_plan_invariants .Balanced 1000000 true 50 (by decide)

/-- C8 counterexample: with `concurrency_cap = 0` the code clamps
`max_concurrency` up to 1, violating `max_concurrency ≤ concurrency_cap`
as the claim states it for every cap. -/
theorem c8_counterexample :
    ¬ ((build_auto_plan .Balanced 1 true 0).max_concurrency ≤ 0) := by
  decide

/-! ## C10 -/

/-- C10: for every desired part size and max_parts, a non-positive
`file_size_bytes` makes `clamp_part_size_for_limit` return
`desired_part_size` completely unchanged — neither the 5 MiB floor nor the
5 GiB cap is applied. -/
theorem c10_clamp_noop_on_nonpositive_size
    (file_size_bytes desired_part_size max_parts : ℤ)
    (h : file_size_bytes ≤ 0) :
    clamp_part_size_for_limit file_size_bytes desired_part_size max_parts =
      desired_part_size := by
  unfold clamp_part_size_for_limit
  rw [if_pos h]

/-- C10 witness: a 1-byte desired size (far below the 5 MiB floor) and a
7 GiB desired size (above the 5 GiB cap) both pass through untouched. -/
theorem c10_clamp_noop_on_nonpositive_size_witness :
    clamp_part_size_for_limit (-3) 1 10000 = 1 ∧
      clamp_part_size_for_limit 0 (7 * GIB) 10000 = 7 * GIB :=
  ⟨c10_clamp_noop_on_nonpositive_size (-3) 1 10000 (by decide),
    c10_clamp_noop_on_nonpositive_size 0 (7 * GIB) 10000 (by decide)⟩


/-! ## C2 -/

/-- `ceil(size / part_size)`, the number of parts needed to cover `size`
bytes with parts of `part_size` bytes (as computed throughout
`src/app.rs`, e.g. `(content_length + part_size - 1) / part_size`). -/
def ceil_parts (size part_size : ℤ) : ℤ := (size + part_size - 1) / part_size

/-- Ceiling division is bounded by `c` once `size ≤ part * c`. -/
theorem ceil_parts_le_of_le_mul {size part c : ℤ} (hp : 0 < part)
    (h : size ≤ part * c) : ceil_parts size part ≤ c := by
  unfold ceil_parts
  have h1 : size + part - 1 ≤ (part - 1) + c * part := by
    have hcomm : part * c = c * part := mul_comm part c
    omega
  calc (size + part - 1) / part ≤ ((part - 1) + c * part) / part :=
        Int.ediv_le_ediv hp h1
    _ = (part - 1) / part + c := Int.add_mul_ediv_right _ _ (by omega)
    _ = c := by rw [Int.ediv_eq_zero_of_lt (by omega) (by omega)]; ring

/-- The clamped part size covers any positive size up to `10 000 · 5 GiB`
within 10 000 parts, whatever the desired part size was. -/
theorem clamp_part_size_covers (desired size : ℤ) (h0 : 0 < size)
    (hub : size ≤ 10000 * S3_MAX_PART_SIZE) :
    0 < clamp_part_size_for_limit size desired 10000 ∧
      size ≤ clamp_part_size_for_limit size desired 10000 * 10000 := by
  have hr : ¬ size ≤ 0 := by omega
  simp only [clamp_part_size_for_limit, if_neg hr, S3_MIN_PART_SIZE,
    S3_MAX_PART_SIZE, MIB, GIB] at *
  omega

/-- C2 (amended): for every object size with
`0 < size ≤ 10 000 · 5 GiB`, every profile, same_region flag and
concurrency cap, clamping `build_auto_plan`'s `initial_part_size` (which
already applies the cost floor) with
`clamp_part_size_for_limit(size, _, 10000)` yields
`ceil(size / part_size) ≤ 10 000`. -/
theorem c2_part_count_bound (profile : AutoProfile) (same_region : Bool)
    (concurrency_cap : ℕ) (size : ℤ) (h0 : 0 < size)
    (hub : size ≤ 10000 * S3_MAX_PART_SIZE) :
    ceil_parts size
        (clamp_part_size_for_limit size
          (build_auto_plan profile size same_region concurrency_cap).initial_part_size
          10000) ≤ 10000 := by
  obtain ⟨hpos, hcov⟩ := clamp_part_size_covers
    (build_auto_plan profile size same_region concurrency_cap).initial_part_size size h0 hub
  exact ceil_parts_le_of_le_mul hpos (by omega)

/-- C2 witness: the amended bound at a concrete 2 TiB Balanced plan. -/
theorem c2_part_count_bound_witness :
    ceil_parts 2199023255552
        (clamp_part_size_for_limit 2199023255552
          (build_auto_plan .Balanced 2199023255552 true 50).initial_part_size
          10000) ≤ 10000 :=
  c2_part_count_bound .Balanced true 50 2199023255552 (by decide) (by decide)

/-- C2 counterexample: the claim as stated quantifies over *every*
`size > 0`, but one byte past `10 000 · 5 GiB` the 5 GiB part-size cap
wins against the 10 000-part requirement and the plan needs 10 001
parts. -/
theorem c2_counterexample :
    ¬ (ceil_parts 53687091200001
        (clamp_part_size_for_limit 53687091200001
          (build_auto_plan .Balanced 53687091200001 true 50).initial_part_size
          10000) ≤ 10000) := by
  decide

/-! ## C3 -/

/-- Part-size retuning after the warm-up probe exactly as composed by
`copy_file` (src/app.rs, lines 1097–1114): `tune_part_size_from_probe`,
then `optimize_part_size_for_cost` on the remaining bytes, then
`clamp_part_size_for_limit` with
`remaining_slots = max(10000 - scheduled, 1)` where `scheduled` is
`next_part_number - 1`. -/
def copy_file_retuned_part_size (profile : AutoProfile) (same_region : Bool)
    (remaining current_part_size : ℤ) (avg_probe_mib_s : ℚ) (scheduled : ℕ) : ℤ :=
  let tuned := tune_part_size_from_probe profile remaining current_part_size avg_probe_mib_s
  let cost_optimized := optimize_part_size_for_cost remaining tuned profile same_region
  let remaining_slots : ℕ := max (10000 - scheduled) 1
  clamp_part_size_for_limit remaining cost_optimized (remaining_slots : ℤ)

/-- Reference probe-tuning rule, written from the spec's words for C3:
double capped at 1 GiB at ≥ 1200 MiB/s; hold at ≥ 1 GiB for CostEfficient
at ≤ 120 MiB/s; halve with a 64 MiB floor at ≤ 120 MiB/s otherwise; else
unchanged. -/
def reference_probe_tuned (profile : AutoProfile) (current_part_size : ℤ)
    (avg_mib_s : ℚ) : ℤ :=
  if avg_mib_s ≥ 1200 then min (current_part_size * 2) (1024 * 1024 * 1024)
  else if profile = .CostEfficient ∧ avg_mib_s ≤ 120 then
    max current_part_size (1024 * 1024 * 1024)
  else if avg_mib_s ≤ 120 then max (current_part_size / 2) (64 * 1024 * 1024)
  else current_part_size

/-- Reference retuned part size, from the spec's words for C3: the rule
value with the cost floor and the part-size clamp applied against the
remaining byte range and `max_parts = 10000 - scheduled`. -/
def reference_retuned_part_size (profile : AutoProfile) (same_region : Bool)
    (remaining current_part_size : ℤ) (avg_mib_s : ℚ) (scheduled : ℕ) : ℤ :=
  clamp_part_size_for_limit remaining
    (optimize_part_size_for_cost remaining
      (reference_probe_tuned profile current_part_size avg_mib_s) profile same_region)
    (((10000 - scheduled : ℕ) : ℤ))

/-- Lattice skeleton shared by the composed clamps: once the cost floor
`CF` dominates the inner 9500-part requirement `R9` (or is itself the
5 GiB cap `G`), the inner clamp is absorbed. -/
theorem absorb_core (x m G R9 CF Q : ℤ) (hmG : m ≤ G) (hCF : CF ≤ G)
    (hd : R9 ≤ CF ∨ CF = G) :
    min (max (max (min (max (min (max (max x m) R9) G) CF) G) m) Q) G =
      min (max (max (min (max x CF) G) m) Q) G := by
  omega

/-- Rounding up to a MiB boundary is monotone. -/
theorem mib_round_mono {a b : ℤ} (h : a ≤ b) :
    ((a + MIB - 1) / MIB) * MIB ≤ ((b + MIB - 1) / MIB) * MIB := by
  simp only [MIB]
  omega

/-- Rounding a value below the 5 GiB cap up to a MiB boundary stays below
the cap (the cap is itself a MiB multiple). -/
theorem mib_round_le_cap {w : ℤ} (h : w ≤ S3_MAX_PART_SIZE) :
    ((w + MIB - 1) / MIB) * MIB ≤ S3_MAX_PART_SIZE := by
  simp only [MIB, S3_MAX_PART_SIZE, GIB] at *
  omega

/-- `ceil(r / 9500) ≤ ceil(r / t)` for divisor `t ≤ 9500` and `r > 0`. -/
theorem ceil_div_antitone (r t : ℤ) (hr : 0 < r) (ht : 0 < t) (ht2 : t ≤ 9500) :
    (r + 9500 - 1) / 9500 ≤ (r + t - 1) / t := by
  have hq := Int.ediv_add_emod (r + t - 1) t
  have hm1 := Int.emod_nonneg (r + t - 1) (by omega : t ≠ 0)
  have hm2 := Int.emod_lt_of_pos (r + t - 1) ht
  have hrc : r ≤ t * ((r + t - 1) / t) := by omega
  have hc0 : 0 ≤ (r + t - 1) / t := Int.ediv_nonneg (by omega) (by omega)
  have h95 : t * ((r + t - 1) / t) ≤ 9500 * ((r + t - 1) / t) :=
    mul_le_mul_of_nonneg_right ht2 hc0
  omega

/-- The absorption equation for one fixed `target_max_parts = t ≤ 9500`,
with `optimize_part_size_for_cost` unfolded. -/
theorem absorb_t (r x slots t : ℤ) (hr : 0 < r) (ht : 0 < t) (ht2 : t ≤ 9500) :
    clamp_part_size_for_limit r
        (min (max (clamp_part_size_for_limit r x 9500)
          (((min (max ((r + t - 1) / t) S3_MIN_PART_SIZE) S3_MAX_PART_SIZE + MIB - 1) / MIB)
            * MIB))
          S3_MAX_PART_SIZE) slots =
      clamp_part_size_for_limit r
        (min (max x
          (((min (max ((r + t - 1) / t) S3_MIN_PART_SIZE) S3_MAX_PART_SIZE + MIB - 1) / MIB)
            * MIB))
          S3_MAX_PART_SIZE) slots := by
  have hr' : ¬ r ≤ 0 := by omega
  have hkey : (((max ((r + 9500 - 1) / 9500) S3_MIN_PART_SIZE + MIB - 1) / MIB) * MIB) ≤
        (((min (max ((r + t - 1) / t) S3_MIN_PART_SIZE) S3_MAX_PART_SIZE + MIB - 1) / MIB)
          * MIB) ∨
      (((min (max ((r + t - 1) / t) S3_MIN_PART_SIZE) S3_MAX_PART_SIZE + MIB - 1) / MIB)
        * MIB) = S3_MAX_PART_SIZE := by
    by_cases hbig : max ((r + t - 1) / t) S3_MIN_PART_SIZE ≤ S3_MAX_PART_SIZE
    · left
      rw [min_eq_left hbig]
      exact mib_round_mono (max_le_max (ceil_div_antitone r t hr ht ht2) le_rfl)
    · right
      rw [min_eq_right (le_of_not_le hbig)]
      simp only [S3_MAX_PART_SIZE, MIB, GIB]
      omega
  simp only [clamp_part_size_for_limit, if_neg hr']
  exact absorb_core x S3_MIN_PART_SIZE S3_MAX_PART_SIZE _ _ _
    (by simp only [S3_MIN_PART_SIZE, S3_MAX_PART_SIZE, MIB, GIB]; omega)
    (mib_round_le_cap (min_le_right _ _)) hkey

/-- The inner `max_parts = 9500` clamp inside `tune_part_size_from_probe`
is absorbed by the later cost floor (whose `target_max_parts ≤ 3500`
forces at least as large a floor) and final 5 GiB cap. -/
theorem clamp9500_absorbed (profile : AutoProfile) (same_region : Bool)
    (remaining x slots : ℤ) (hr : 0 < remaining) :
    clamp_part_size_for_limit remaining
        (optimize_part_size_for_cost remaining
          (clamp_part_size_for_limit remaining x 9500) profile same_region)
        slots =
      clamp_part_size_for_limit remaining
        (optimize_part_size_for_cost remaining x profile same_region) slots := by
  have hr' : ¬ remaining ≤ 0 := by omega
  cases profile <;> cases same_region <;>
    simp only [optimize_part_size_for_cost, if_neg hr'] <;>
    exact absorb_t remaining x slots _ hr (by decide) (by decide)

/-- C3: after a probe over `remaining > 0` bytes with `scheduled < 10000`
parts already scheduled, the part size computed by `copy_file` equals the
spec's description: the four-rule tuned value (double/hold/halve/keep)
with the cost floor and the part-size clamp then applied against the
remaining byte range and `max_parts = 10000 - scheduled`.  The current
part size is positive in every engine state (it was itself produced by
the clamp). -/
theorem c3_retuned_part_size_eq_reference (profile : AutoProfile)
    (same_region : Bool) (remaining current_part_size : ℤ) (avg_mib_s : ℚ)
    (scheduled : ℕ) (hr : 0 < remaining) (hs : scheduled < 10000) :
    copy_file_retuned_part_size profile same_region remaining current_part_size
        avg_mib_s scheduled =
      reference_retuned_part_size profile same_region remaining current_part_size
        avg_mib_s scheduled := by
  have hslots : max (10000 - scheduled) 1 = 10000 - scheduled := by omega
  have htune : tune_part_size_from_probe profile remaining current_part_size avg_mib_s =
      clamp_part_size_for_limit remaining
        (reference_probe_tuned profile current_part_size avg_mib_s) 9500 := by
    unfold tune_part_size_from_probe reference_probe_tuned
    rw [if_neg (by omega)]
  unfold copy_file_retuned_part_size reference_retuned_part_size
  rw [hslots, htune]
  exact clamp9500_absorbed profile same_region remaining _ _ hr

/-- C3 witness: the equality at a concrete probe outcome. -/
theorem c3_retuned_part_size_eq_reference_witness :
    copy_file_retuned_part_size .Balanced true 10737418240 134217728 500 4 =
      reference_retuned_part_size .Balanced true 10737418240 134217728 500 4 :=
  c3_retuned_part_size_eq_reference .Balanced true 10737418240 134217728 500 4
    (by decide) (by decide)

/-! ## C6, C7, C9: verifier and region helpers -/

/-- The slice of a `HeadObjectOutput` response the verifier reads: size,
ETag, the `source-etag` user-metadata entry, and the four checksum
headers. -/
structure HeadMeta where
  content_length : Option ℤ
  e_tag : Option String
  meta_source_etag : Option String
  checksum_sha256 : Option String
  checksum_sha1 : Option String
  checksum_crc32_c : Option String
  checksum_crc32 : Option String
  deriving DecidableEq, Repr

/-- `S3CopyApp::extract_checksum_value` (src/app.rs, lines 571-585). -/
def extract_checksum_value (meta : HeadMeta) : Option String :=
  match meta.checksum_sha256 with
  | some v => some ("SHA256:" ++ v)
  | none =>
    match meta.checksum_sha1 with
    | some v => some ("SHA1:" ++ v)
    | none =>
      match meta.checksum_crc32_c with
      | some v => some ("CRC32C:" ++ v)
      | none =>
        match meta.checksum_crc32 with
        | some v => some ("CRC32:" ++ v)
        | none => none

/-- `S3CopyApp::verify_checksum_with_provider` (src/app.rs, lines
587-605), applied to the real `HeadObjectChecksumProvider` whose
`extract_checksum_value` is the function above. -/
def verify_checksum_with_provider (source_metadata dest_metadata : HeadMeta) :
    Except String Unit :=
  match extract_checksum_value source_metadata, extract_checksum_value dest_metadata with
  | some a, some b =>
    if a = b then .ok ()
    else .error "Checksum mismatch"
  | _, _ => .error "Checksum verification requested but checksum headers are not available"

/-- The four checksum algorithms, for stating the precedence claim. -/
inductive ChecksumAlgo
  | SHA256
  | SHA1
  | CRC32C
  | CRC32
  deriving DecidableEq, Repr

/-- The string tag `extract_checksum_value` prepends per algorithm. -/
def algo_tag : ChecksumAlgo → String
  | .SHA256 => "SHA256:"
  | .SHA1 => "SHA1:"
  | .CRC32C => "CRC32C:"
  | .CRC32 => "CRC32:"

/-- The first checksum present following the precedence
`SHA256 > SHA1 > CRC32C > CRC32`, as an (algorithm, value) pair. -/
def checksum_first (meta : HeadMeta) : Option (ChecksumAlgo × String) :=
  match meta.checksum_sha256 with
  | some v => some (.SHA256, v)
  | none =>
    match meta.checksum_sha1 with
    | some v => some (.SHA1, v)
    | none =>
      match meta.checksum_crc32_c with
      | some v => some (.CRC32C, v)
      | none =>
        match meta.checksum_crc32 with
        | some v => some (.CRC32, v)
        | none => none

/-- The checksum a head advertises for one given algorithm. -/
def checksum_of_algo (meta : HeadMeta) : ChecksumAlgo → Option String
  | .SHA256 => meta.checksum_sha256
  | .SHA1 => meta.checksum_sha1
  | .CRC32C => meta.checksum_crc32_c
  | .CRC32 => meta.checksum_crc32

/-- Claim C6's success condition, written from the spec's words: the first
algorithm present in the source determines the comparison, and the
destination must expose that same algorithm with an equal value. -/
def spec_checksum_ok (src dst : HeadMeta) : Prop :=
  ∃ a v, checksum_first src = some (a, v) ∧ checksum_of_algo dst a = some v

theorem extract_eq_first (meta : HeadMeta) :
    extract_checksum_value meta =
      (checksum_first meta).map (fun p => algo_tag p.1 ++ p.2) := by
  unfold extract_checksum_value checksum_first
  rcases meta.checksum_sha256 with _ | v
  · rcases meta.checksum_sha1 with _ | v
    · rcases meta.checksum_crc32_c with _ | v
      · rcases meta.checksum_crc32 with _ | v <;> rfl
      · rfl
    · rfl
  · rfl

/-- The `"ALGO:value"` encoding is injective: the four tags are
prefix-free. -/
theorem algo_tag_append_inj {a b : ChecksumAlgo} {v w : String}
    (h : algo_tag a ++ v = algo_tag b ++ w) : a = b ∧ v = w := by
  have hd := congrArg String.data h
  cases a <;> cases b <;>
    simp only [algo_tag, String.data_append] at hd <;>
    first
      | exact ⟨rfl, String.ext (List.append_cancel_left hd)⟩
      | simp at hd

/-- C6 (amended): in Checksum mode both heads must advertise a checksum
and extraction follows the precedence `SHA256 > SHA1 > CRC32C > CRC32` on
*each* side; verification succeeds iff the two sides' first-present
algorithms coincide and carry equal values (the destination's lower-
precedence checksums are never consulted). -/
theorem c6_checksum_verification_iff (src dst : HeadMeta) :
    verify_checksum_with_provider src dst = .ok () ↔
      ∃ a v, checksum_first src = some (a, v) ∧ checksum_first dst = some (a, v) := by
  unfold verify_checksum_with_provider
  rw [extract_eq_first src, extract_eq_first dst]
  cases hs : checksum_first src with
  | none => simp
  | some p =>
    cases hd : checksum_first dst with
    | none => simp
    | some q =>
      obtain ⟨a, v⟩ := p
      obtain ⟨b, w⟩ := q
      simp only [Option.map_some']
      constructor
      · intro h
        have heq : algo_tag a ++ v = algo_tag b ++ w := by
          by_contra hne
          rw [if_neg hne] at h
          cases h
        obtain ⟨hab, hvw⟩ := algo_tag_append_inj heq
        exact ⟨a, v, rfl, by rw [hab, hvw]⟩
      · rintro ⟨c, u, hc, hu⟩
        simp only [Option.some.injEq, Prod.mk.injEq] at hc hu
        obtain ⟨rfl, rfl⟩ := hc
        obtain ⟨rfl, rfl⟩ := hu
        simp

/-- Source head advertising only a SHA1 checksum. -/
def src_sha1_only : HeadMeta :=
  { content_length := none, e_tag := none, meta_source_etag := none,
    checksum_sha256 := none, checksum_sha1 := some "x",
    checksum_crc32_c := none, checksum_crc32 := none }

/-- Destination head advertising the same SHA1 checksum plus a SHA256
checksum that shadows it under the precedence order. -/
def dst_sha256_and_sha1 : HeadMeta :=
  { content_length := none, e_tag := none, meta_source_etag := none,
    checksum_sha256 := some "y", checksum_sha1 := some "x",
    checksum_crc32_c := none, checksum_crc32 := none }

/-- C6 counterexample: the destination *does* expose the source's
first-present algorithm (SHA1) with an equal value, yet verification
fails with a checksum mismatch, because the code compares the
destination's own precedence-first checksum (its SHA256). -/
theorem c6_counterexample :
    spec_checksum_ok src_sha1_only dst_sha256_and_sha1 ∧
      verify_checksum_with_provider src_sha1_only dst_sha256_and_sha1 =
        .error "Checksum mismatch" :=
  ⟨⟨.SHA1, "x", rfl, rfl⟩, rfl⟩

/-- Rust `str::trim_matches('"')`: strip every leading and trailing
double-quote character. -/
def trim_quote_marks (s : String) : String :=
  String.mk (((s.data.dropWhile (fun c => c = '"')).reverse.dropWhile
    (fun c => c = '"')).reverse)

/-- `format!("\"{}\"", ...)`: wrap a value in double quotes. -/
def quote_wrap (s : String) : String := "\"" ++ s ++ "\""

/-- The `VerifyIntegrity::Etag` arm of the post-copy verifier
(src/app.rs, lines 1260-1276). -/
def verify_etag_branch (source_metadata dest_metadata : HeadMeta) :
    Except String Unit :=
  let src_etag := source_metadata.e_tag.getD ""
  let dst_etag := dest_metadata.e_tag.getD ""
  if src_etag ≠ "" ∧ dst_etag ≠ "" ∧ src_etag ≠ dst_etag then
    let tracked_src := (dest_metadata.meta_source_etag.map
      (fun v => quote_wrap (trim_quote_marks v))).getD ""
    let normalized_src := quote_wrap (trim_quote_marks src_etag)
    if tracked_src ≠ normalized_src then
      .error "Verification failed: ETag mismatch and source-etag metadata mismatch"
    else .ok ()
  else .ok ()

/-- The post-copy verification tail of `copy_file` (src/app.rs, lines
1232-1294): `none` when the verifier is skipped, otherwise the
verification outcome.  `content_length` is the source size HEADed at the
start of `copy_file`; `source_metadata` and `dest_metadata` are the two
re-HEADed responses (their fetch failures propagate separately and are
not part of this claim). -/
def post_copy_verification (dry_run : Bool) (verify_integrity : VerifyIntegrity)
    (content_length : ℤ) (source_metadata dest_metadata : HeadMeta) :
    Option (Except String Unit) :=
  if ¬ dry_run ∧ verify_integrity ≠ .Off then
    some (
      if dest_metadata.content_length ≠ some content_length then
        .error "Verification failed: source and destination size mismatch"
      else
        match verify_integrity with
        | .Off => .ok ()
        | .Etag => verify_etag_branch source_metadata dest_metadata
        | .Checksum => verify_checksum_with_provider source_metadata dest_metadata)
  else none

/-- C7 (amended): the post-copy verifier runs iff `dry_run` is false and
`verify != Off`; and in every verify mode other than `Off` a difference
between the *originally*-HEADed source size (`content_length`) and the
destination size makes `copy_file` return a verification-failure error.
(The code never compares the re-HEADed source size itself.) -/
theorem c7_verifier_gate_and_size_mismatch (dry_run : Bool)
    (verify_integrity : VerifyIntegrity) (content_length : ℤ)
    (source_metadata dest_metadata : HeadMeta) :
    ((post_copy_verification dry_run verify_integrity content_length
        source_metadata dest_metadata).isSome ↔
      dry_run = false ∧ verify_integrity ≠ .Off) ∧
      (dry_run = false → verify_integrity ≠ .Off →
        dest_metadata.content_length ≠ some content_length →
        post_copy_verification dry_run verify_integrity content_length
            source_metadata dest_metadata =
          some (.error "Verification failed: source and destination size mismatch")) := by
  unfold post_copy_verification
  constructor
  · split_ifs with h <;> cases dry_run <;> simp_all
  · intro h1 h2 h3
    rw [if_pos ⟨by simp [h1], h2⟩, if_pos h3]

/-- Re-HEADed source whose size changed to 50 bytes. -/
def reheaded_source : HeadMeta :=
  { content_length := some 50, e_tag := some "\"e\"", meta_source_etag := none,
    checksum_sha256 := none, checksum_sha1 := none,
    checksum_crc32_c := none, checksum_crc32 := none }

/-- Destination still matching the original 100-byte source size. -/
def matching_destination : HeadMeta :=
  { content_length := some 100, e_tag := some "\"e\"", meta_source_etag := none,
    checksum_sha256 := none, checksum_sha1 := none,
    checksum_crc32_c := none, checksum_crc32 := none }

/-- C7 witness: with the destination reporting 50 bytes against an
originally-HEADed 100-byte source, Etag-mode verification returns the
size-mismatch error. -/
theorem c7_verifier_gate_and_size_mismatch_witness :
    post_copy_verification false .Etag 100 reheaded_source reheaded_source =
      some (.error "Verification failed: source and destination size mismatch") :=
  (c7_verifier_gate_and_size_mismatch false .Etag 100 reheaded_source
    reheaded_source).2 rfl (by decide) (by decide)

/-- C7 counterexample: the claim as stated compares the *re-HEADed*
source size with the destination size, but the code compares the
destination size with the originally-HEADed `content_length`.  Here the
re-HEADed source reports 50 bytes, the destination 100 bytes — yet
verification succeeds because the original source size was 100. -/
theorem c7_counterexample :
    reheaded_source.content_length ≠ matching_destination.content_length ∧
      post_copy_verification false .Etag 100 reheaded_source matching_destination =
        some (.ok ()) := by
  constructor
  · decide
  · rfl

/-- `S3CopyApp::get_bucket_region` (src/app.rs, lines 232-251) on the
success path, as a function of the location constraint the store
reported (`none` when the response carried no constraint). -/
def app_get_bucket_region (location_constraint : Option String) : String :=
  let region := location_constraint.getD "us-east-1"
  if region = "" then "us-east-1" else region

/-- `get_bucket_region` from `src/s3_utils.rs` on the success path: a
user override wins, then the legacy `"EU"` constraint maps to
`"eu-west-1"`, an absent constraint maps to `"us-east-1"`, and anything
else is returned verbatim. -/
def s3_utils_get_bucket_region (user_override : Option String)
    (location_constraint : Option String) : String :=
  match user_override with
  | some r => r
  | none =>
    match location_constraint with
    | some s => if s = "EU" then "eu-west-1" else s
    | none => "us-east-1"

/-- C9 (amended): the engine's own `get_bucket_region` (src/app.rs, the
one `copy_file` calls) maps an empty *or* absent constraint to
`"us-east-1"` but returns every other constraint — including the legacy
`"EU"` — verbatim; the `s3_utils` helper maps an absent constraint to
`"us-east-1"` and `"EU"` to `"eu-west-1"` but returns any other
constraint, including a present-but-empty one, verbatim. -/
theorem c9_get_bucket_region_mappings (s : String) :
    app_get_bucket_region none = "us-east-1" ∧
      app_get_bucket_region (some "") = "us-east-1" ∧
      (s ≠ "" → app_get_bucket_region (some s) = s) ∧
      s3_utils_get_bucket_region none none = "us-east-1" ∧
      s3_utils_get_bucket_region none (some "EU") = "eu-west-1" ∧
      (s ≠ "EU" → s3_utils_get_bucket_region none (some s) = s) := by
  refine ⟨by decide, by decide, fun h => ?_, by decide, by decide, fun h => ?_⟩
  · unfold app_get_bucket_region
    simp [h]
  · unfold s3_utils_get_bucket_region
    simp [h]

/-- C9 witness: a regular constraint string passes through both
functions verbatim. -/
theorem c9_get_bucket_region_mappings_witness :
    app_get_bucket_region (some "eu-west-3") = "eu-west-3" ∧
      s3_utils_get_bucket_region none (some "eu-west-3") = "eu-west-3" :=
  ⟨(c9_get_bucket_region_mappings "eu-west-3").2.2.1 (by decide),
    (c9_get_bucket_region_mappings "eu-west-3").2.2.2.2.2 (by decide)⟩

/-- C9 counterexample: the engine's `get_bucket_region` does *not* map
the legacy `"EU"` constraint to `"eu-west-1"` (it returns it verbatim),
and the `s3_utils` variant does *not* map a present-but-empty constraint
to `"us-east-1"`. -/
theorem c9_counterexample :
    app_get_bucket_region (some "EU") = "EU" ∧ "EU" ≠ "eu-west-1" ∧
      s3_utils_get_bucket_region none (some "") = "" ∧ "" ≠ "us-east-1" := by
  refine ⟨by decide, by decide, by decide, by decide⟩

/-! ## C1: the multipart upload lifecycle phase of `copy_file` -/

/-- Store interactions of the multipart phase, all for the single upload
id obtained from `initiate_multipart_upload` (invocation events; in
dry-run the methods are still invoked but skip the store). -/
inductive UploadEvent
  | uploadPart (part_number : ℕ)
  | completeMU
  | abortMU
  deriving DecidableEq, Repr

/-- Outcome of `S3CopyApp::upload_part_copy` (src/app.rs, lines 392-432):
dry-run returns a synthetic ETag, otherwise the store's per-part outcome
(the oracle `part`). -/
def upload_part_outcome (dry_run : Bool) (part : ℕ → Except String String)
    (part_number : ℕ) : Except String String :=
  if dry_run then .ok "dry-run-etag" else part part_number

/-- Outcome of `S3CopyApp::complete_multipart_upload` (src/app.rs, lines
434-470): dry-run returns Ok without touching the store. -/
def complete_outcome (dry_run : Bool) (complete_res : Except String Unit) :
    Except String Unit :=
  if dry_run then .ok () else complete_res

/-- The batch-building inner loop of `copy_file` (src/app.rs, lines
1163-1174): schedule up to `n` parts of `part_size` bytes from
`next_start_byte`, returning the `(part_number, part_bytes)` batch and
the updated counters. -/
def schedule_batch (content_length part_size : ℤ) :
    ℕ → ℕ → ℤ → List (ℕ × ℤ) × ℕ × ℤ
  | 0, next_part_number, next_start_byte => ([], next_part_number, next_start_byte)
  | n + 1, next_part_number, next_start_byte =>
    if next_start_byte ≥ content_length then ([], next_part_number, next_start_byte)
    else
      let end_byte := min (next_start_byte + part_size) content_length - 1
      let part_bytes := end_byte - next_start_byte + 1
      let rest := schedule_batch content_length part_size n (next_part_number + 1)
        (end_byte + 1)
      ((next_part_number, part_bytes) :: rest.1, rest.2)

/-- Result of `S3CopyApp::run_copy_window` (src/app.rs, lines 501-569):
every part of the batch is dispatched (spawned), results are awaited in
dispatch order and the first error is surfaced. -/
def run_window_result (dry_run : Bool) (part : ℕ → Except String String) :
    List (ℕ × ℤ) → Except String Unit
  | [] => .ok ()
  | (pn, _) :: rest =>
    match upload_part_outcome dry_run part pn with
    | .error e => .error e
    | .ok _ => run_window_result dry_run part rest

/-- Concurrency for the next window (src/app.rs, lines 1181-1196): the
engine adapts with `min_concurrency = 4` and `max_auto_concurrency` only
in auto mode. -/
def next_concurrency (auto : Bool) (profile : AutoProfile)
    (target_concurrency max_auto : ℕ) (metrics : WindowMetrics) : ℕ :=
  if auto then adapt_concurrency profile target_concurrency 4 max_auto metrics
  else target_concurrency

theorem adapt_concurrency_pos (profile : AutoProfile) (tc max_auto : ℕ)
    (metrics : WindowMetrics) (htc : 1 ≤ tc) (hmax : 1 ≤ max_auto) :
    1 ≤ adapt_concurrency profile tc 4 max_auto metrics := by
  unfold adapt_concurrency
  cases profile <;> dsimp only <;> split_ifs <;> omega

theorem next_concurrency_pos (auto : Bool) (profile : AutoProfile)
    (tc max_auto : ℕ) (metrics : WindowMetrics) (htc : 1 ≤ tc)
    (hmax : 1 ≤ max_auto) :
    1 ≤ next_concurrency auto profile tc max_auto metrics := by
  unfold next_concurrency
  split_ifs
  · exact adapt_concurrency_pos profile tc max_auto metrics htc hmax
  · exact htc

theorem schedule_batch_start_le (content_length part_size : ℤ)
    (hps : 0 < part_size) :
    ∀ (n next_part_number : ℕ) (next_start_byte : ℤ),
      next_start_byte ≤
        (schedule_batch content_length part_size n next_part_number next_start_byte).2.2
  | 0, _, _ => le_refl _
  | n + 1, pn, start => by
    rw [schedule_batch]
    split_ifs with h
    · exact le_refl _
    · have := schedule_batch_start_le content_length part_size hps n (pn + 1)
        (min (start + part_size) content_length - 1 + 1)
      push_neg at h
      simp only []
      omega

theorem schedule_batch_start_lt (content_length part_size : ℤ)
    (hps : 0 < part_size) (n next_part_number : ℕ) (next_start_byte : ℤ)
    (hn : 0 < n) (h : next_start_byte < content_length) :
    next_start_byte <
      (schedule_batch content_length part_size n next_part_number next_start_byte).2.2 := by
  obtain ⟨m, rfl⟩ : ∃ m, n = m + 1 := ⟨n - 1, by omega⟩
  rw [schedule_batch]
  rw [if_neg (by omega)]
  have := schedule_batch_start_le content_length part_size hps m (next_part_number + 1)
    (min (next_start_byte + part_size) content_length - 1 + 1)
  simp only []
  omega

/-- The window loop of `copy_file` (src/app.rs, lines 1162-1197): batches
of up to `target_concurrency` parts, first error aborts the loop, auto
mode rescales concurrency after each window from that window's metrics
(the oracle `win_metrics`). -/
def window_loop (dry_run auto : Bool) (profile : AutoProfile)
    (part : ℕ → Except String String) (win_metrics : ℕ → WindowMetrics)
    (max_auto : ℕ) (hmax : 1 ≤ max_auto) (content_length part_size : ℤ)
    (hps : 0 < part_size) (target_concurrency : ℕ) (htc : 1 ≤ target_concurrency)
    (window_index next_part_number : ℕ) (next_start_byte : ℤ) :
    Except String Unit × List UploadEvent :=
  if h : next_start_byte < content_length then
    let sched := schedule_batch content_length part_size target_concurrency
      next_part_number next_start_byte
    let evs := sched.1.map (fun pb => UploadEvent.uploadPart pb.1)
    match run_window_result dry_run part sched.1 with
    | .error e => (.error e, evs)
    | .ok _ =>
      let res := window_loop dry_run auto profile part win_metrics max_auto hmax
        content_length part_size hps
        (next_concurrency auto profile target_concurrency max_auto
          (win_metrics window_index))
        (next_concurrency_pos auto profile target_concurrency max_auto
          (win_metrics window_index) htc hmax)
        (window_index + 1) sched.2.1 sched.2.2
      (res.1, evs ++ res.2)
  else (.ok (), [])
termination_by (content_length - next_start_byte).toNat
decreasing_by
  have := schedule_batch_start_lt content_length part_size hps target_concurrency
    next_part_number next_start_byte (by omega) h
  omega

/-- State carried out of the warm-up probe loop. -/
structure ProbeState where
  res : Except String Unit
  measured_mib_s : ℚ
  probe_done : ℕ
  next_part_number : ℕ
  next_start_byte : ℤ
  events : List UploadEvent
  deriving Repr

/-- The serial warm-up probe of `copy_file` (src/app.rs, lines
1074-1091): up to `n` parts uploaded one at a time, each timed (the
oracle `part_seconds`, floored at 0.001 s as in the source), accumulating
`part_mib / seconds`; the first error aborts the whole copy. -/
def probe_loop (dry_run : Bool) (part : ℕ → Except String String)
    (part_seconds : ℕ → ℚ) (content_length part_size : ℤ) :
    ℕ → ℕ → ℤ → ℚ → ℕ → ProbeState
  | 0, pn, start, acc, done => ⟨.ok (), acc, done, pn, start, []⟩
  | n + 1, pn, start, acc, done =>
    if start ≥ content_length then ⟨.ok (), acc, done, pn, start, []⟩
    else
      let end_byte := min (start + part_size) content_length - 1
      let part_bytes := end_byte - start + 1
      match upload_part_outcome dry_run part pn with
      | .error e => ⟨.error e, acc, done, pn, start, [.uploadPart pn]⟩
      | .ok _ =>
        let secs := max (part_seconds pn) (1 / 1000)
        let st := probe_loop dry_run part part_seconds content_length part_size n
          (pn + 1) (end_byte + 1) (acc + ((part_bytes : ℚ) / (1024 * 1024)) / secs)
          (done + 1)
        { st with events := .uploadPart pn :: st.events }

/-- `clamp_part_size_for_limit` returns a positive size whenever the file
size is positive (it is at least the 5 MiB floor). -/
theorem clamp_part_size_pos (file_size_bytes desired_part_size max_parts : ℤ)
    (h : 0 < file_size_bytes) :
    0 < clamp_part_size_for_limit file_size_bytes desired_part_size max_parts := by
  unfold clamp_part_size_for_limit
  rw [if_neg (by omega)]
  simp only [S3_MIN_PART_SIZE, S3_MAX_PART_SIZE, MIB, GIB]
  generalize (file_size_bytes + max_parts - 1) / max_parts = q
  omega

/-- The retuned part size is positive whenever bytes remain. -/
theorem copy_file_retuned_part_size_pos (profile : AutoProfile)
    (same_region : Bool) (remaining current_part_size : ℤ) (avg : ℚ)
    (scheduled : ℕ) (h : 0 < remaining) :
    0 < copy_file_retuned_part_size profile same_region remaining
      current_part_size avg scheduled := by
  unfold copy_file_retuned_part_size
  exact clamp_part_size_pos _ _ _ h

/-- The tail of the guarded upload block (src/app.rs, lines 1162-1218):
run the window loop from the given position, then — only after a
successful drain — invoke `complete_multipart_upload`. -/
def windows_then_complete (dry_run auto : Bool) (profile : AutoProfile)
    (part : ℕ → Except String String) (win_metrics : ℕ → WindowMetrics)
    (complete_res : Except String Unit) (max_auto : ℕ) (hmax : 1 ≤ max_auto)
    (content_length part_size : ℤ) (hps : 0 < part_size)
    (target_concurrency : ℕ) (htc : 1 ≤ target_concurrency)
    (next_part_number : ℕ) (next_start_byte : ℤ) :
    Except String Unit × List UploadEvent :=
  match window_loop dry_run auto profile part win_metrics max_auto hmax
    content_length part_size hps target_concurrency htc 0 next_part_number
    next_start_byte with
  | (.error e, evs) => (.error e, evs)
  | (.ok _, evs) => (complete_outcome dry_run complete_res, evs ++ [.completeMU])

/-- The body of the guarded upload block of `copy_file` (src/app.rs,
lines 1056-1219): optional warm-up probe, probe-based retuning of the
part size (via `copy_file_retuned_part_size`), the window loop, then
completion.  Every failure short-circuits out of the block. -/
def multipart_body (dry_run auto : Bool) (profile : AutoProfile)
    (same_region : Bool) (part : ℕ → Except String String)
    (part_seconds : ℕ → ℚ) (win_metrics : ℕ → WindowMetrics)
    (complete_res : Except String Unit) (probe_parts max_auto : ℕ)
    (hmax : 1 ≤ max_auto) (content_length part_size : ℤ) (hps : 0 < part_size)
    (target_concurrency : ℕ) (htc : 1 ≤ target_concurrency) :
    Except String Unit × List UploadEvent :=
  if auto ∧ 0 < probe_parts then
    let max_probe := min probe_parts ((content_length + part_size - 1) / part_size).toNat
    let st := probe_loop dry_run part part_seconds content_length part_size
      max_probe 1 0 0 0
    match st.res with
    | .error e => (.error e, st.events)
    | .ok _ =>
      if hret : 0 < st.probe_done ∧ 0 < content_length - st.next_start_byte then
        let tuned := copy_file_retuned_part_size profile same_region
          (content_length - st.next_start_byte) part_size
          (st.measured_mib_s / (st.probe_done : ℚ)) (st.next_part_number - 1)
        let res := windows_then_complete dry_run auto profile part win_metrics
          complete_res max_auto hmax content_length tuned
          (copy_file_retuned_part_size_pos profile same_region _ _ _ _ hret.2)
          target_concurrency htc st.next_part_number st.next_start_byte
        (res.1, st.events ++ res.2)
      else
        let res := windows_then_complete dry_run auto profile part win_metrics
          complete_res max_auto hmax content_length part_size hps
          target_concurrency htc st.next_part_number st.next_start_byte
        (res.1, st.events ++ res.2)
  else
    windows_then_complete dry_run auto profile part win_metrics complete_res
      max_auto hmax content_length part_size hps target_concurrency htc 1 0

/-- The guarded upload block plus its cleanup (src/app.rs, lines
1056-1229): on any failure of the block, `abort_multipart_upload` is
invoked; its outcome (`abort_res`) is only logged by the source
(line 1226), never returned, so the phase ignores it and the primary
error is surfaced unchanged. -/
def multipart_phase (dry_run auto : Bool) (profile : AutoProfile)
    (same_region : Bool) (part : ℕ → Except String String)
    (part_seconds : ℕ → ℚ) (win_metrics : ℕ → WindowMetrics)
    (complete_res abort_res : Except String Unit) (probe_parts max_auto : ℕ)
    (hmax : 1 ≤ max_auto) (content_length part_size : ℤ) (hps : 0 < part_size)
    (target_concurrency : ℕ) (htc : 1 ≤ target_concurrency) :
    Except String Unit × List UploadEvent :=
  match multipart_body dry_run auto profile same_region part part_seconds
    win_metrics complete_res probe_parts max_auto hmax content_length part_size
    hps target_concurrency htc with
  | (.ok _, evs) => (.ok (), evs)
  | (.error e, evs) => (.error e, evs ++ [.abortMU])

/-- A batch's dispatch events are all `uploadPart`s. -/
theorem count_map_uploadPart (batch : List (ℕ × ℤ)) (ev : UploadEvent)
    (hev : ∀ n, ev ≠ .uploadPart n) :
    (batch.map (fun pb => UploadEvent.uploadPart pb.1)).count ev = 0 := by
  rw [List.count_eq_zero]
  intro hmem
  obtain ⟨pb, _, hpb⟩ := List.mem_map.mp hmem
  exact hev pb.1 hpb.symm

/-- The window loop never invokes a terminal operation: its events are
exclusively `uploadPart`s. -/
theorem window_loop_no_terminal (dry_run auto : Bool) (profile : AutoProfile)
    (part : ℕ → Except String String) (win_metrics : ℕ → WindowMetrics)
    (max_auto : ℕ) (hmax : 1 ≤ max_auto) (content_length part_size : ℤ)
    (hps : 0 < part_size) (ev : UploadEvent) (hev : ∀ n, ev ≠ .uploadPart n) :
    ∀ (N : ℕ) (target_concurrency : ℕ) (htc : 1 ≤ target_concurrency)
      (window_index next_part_number : ℕ) (next_start_byte : ℤ),
      (content_length - next_start_byte).toNat ≤ N →
      ((window_loop dry_run auto profile part win_metrics max_auto hmax
        content_length part_size hps target_concurrency htc window_index
        next_part_number next_start_byte).2.count ev = 0) := by
  intro N
  induction N with
  | zero =>
    intro tc htc wi pn start hN
    rw [window_loop, dif_neg (by omega)]
    rfl
  | succ N ih =>
    intro tc htc wi pn start hN
    rw [window_loop]
    split_ifs with h
    · cases hw : run_window_result dry_run part
        (schedule_batch content_length part_size tc pn start).1 with
      | error e =>
        simp only [hw]
        exact count_map_uploadPart _ ev hev
      | ok u =>
        simp only [hw, List.count_append]
        rw [count_map_uploadPart _ ev hev]
        have hlt := schedule_batch_start_lt content_length part_size hps tc pn start
          (by omega) h
        rw [ih _ (next_concurrency_pos auto profile tc max_auto
          (win_metrics wi) htc hmax) (wi + 1)
          (schedule_batch content_length part_size tc pn start).2.1
          (schedule_batch content_length part_size tc pn start).2.2 (by omega)]
    · rfl

/-- The probe loop never invokes a terminal operation. -/
theorem probe_loop_no_terminal (dry_run : Bool)
    (part : ℕ → Except String String) (part_seconds : ℕ → ℚ)
    (content_length part_size : ℤ) (ev : UploadEvent)
    (hev : ∀ n, ev ≠ .uploadPart n) :
    ∀ (n pn : ℕ) (start : ℤ) (acc : ℚ) (done : ℕ),
      (probe_loop dry_run part part_seconds content_length part_size n pn start
        acc done).events.count ev = 0 := by
  intro n
  induction n with
  | zero => intro pn start acc done; rfl
  | succ n ih =>
    intro pn start acc done
    rw [probe_loop]
    split_ifs with h
    · rfl
    · cases hu : upload_part_outcome dry_run part pn with
      | error e =>
        simp only [hu, List.count_cons, List.count_nil]
        simp only [beq_iff_eq]
        rw [if_neg (fun he => hev pn he.symm)]
      | ok u =>
        simp only [hu, List.count_cons]
        rw [ih]
        simp only [beq_iff_eq]
        rw [if_neg (fun he => hev pn he.symm)]

theorem windows_then_complete_spec (dry_run auto : Bool) (profile : AutoProfile)
    (part : ℕ → Except String String) (win_metrics : ℕ → WindowMetrics)
    (complete_res : Except String Unit) (max_auto : ℕ) (hmax : 1 ≤ max_auto)
    (content_length part_size : ℤ) (hps : 0 < part_size)
    (target_concurrency : ℕ) (htc : 1 ≤ target_concurrency)
    (next_part_number : ℕ) (next_start_byte : ℤ) :
    ((windows_then_complete dry_run auto profile part win_metrics complete_res
        max_auto hmax content_length part_size hps target_concurrency htc
        next_part_number next_start_byte).1 = .ok () →
      (windows_then_complete dry_run auto profile part win_metrics complete_res
        max_auto hmax content_length part_size hps target_concurrency htc
        next_part_number next_start_byte).2.count .completeMU = 1 ∧
      (windows_then_complete dry_run auto profile part win_metrics complete_res
        max_auto hmax content_length part_size hps target_concurrency htc
        next_part_number next_start_byte).2.count .abortMU = 0) ∧
    (∀ e, (windows_then_complete dry_run auto profile part win_metrics complete_res
        max_auto hmax content_length part_size hps target_concurrency htc
        next_part_number next_start_byte).1 = .error e →
      (windows_then_complete dry_run auto profile part win_metrics complete_res
        max_auto hmax content_length part_size hps target_concurrency htc
        next_part_number next_start_byte).2.count .abortMU = 0 ∧
      (windows_then_complete dry_run auto profile part win_metrics complete_res
        max_auto hmax content_length part_size hps target_concurrency htc
        next_part_number next_start_byte).2.count .completeMU ≤ 1 ∧
      ((windows_then_complete dry_run auto profile part win_metrics complete_res
        max_auto hmax content_length part_size hps target_concurrency htc
        next_part_number next_start_byte).2.count .completeMU = 1 →
        complete_outcome dry_run complete_res = .error e)) := by
  have hc := window_loop_no_terminal dry_run auto profile part win_metrics
    max_auto hmax content_length part_size hps .completeMU (by intro n; simp)
    (content_length - next_start_byte).toNat target_concurrency htc 0
    next_part_number next_start_byte le_rfl
  have ha := window_loop_no_terminal dry_run auto profile part win_metrics
    max_auto hmax content_length part_size hps .abortMU (by intro n; simp)
    (content_length - next_start_byte).toNat target_concurrency htc 0
    next_part_number next_start_byte le_rfl
  unfold windows_then_complete
  cases hres : window_loop dry_run auto profile part win_metrics max_auto hmax
    content_length part_size hps target_concurrency htc 0 next_part_number
    next_start_byte with
  | mk r evs =>
    rw [hres] at hc ha
    cases r with
    | error e =>
      refine ⟨(fun h => by cases h), fun e2 he2 => ?_⟩
      simp only at hc ha ⊢
      exact ⟨ha, by omega, fun h1 => by omega⟩
    | ok u =>
      simp only at hc ha ⊢
      constructor
      · intro _
        simp [List.count_append, List.count_cons, hc, ha]
      · intro e2 he2
        refine ⟨by simp [List.count_append, List.count_cons, ha], ?_, fun _ => he2⟩
        simp [List.count_append, List.count_cons, hc]

/-- Terminal-invocation bookkeeping for an upload-block result: a
successful block completed exactly once and never aborted; a failed block
never aborted itself (cleanup is the caller's), completed at most once,
and completed-then-failed only when the completion call itself returned
the error. -/
def terminal_spec (dry_run : Bool) (complete_res : Except String Unit)
    (p : Except String Unit × List UploadEvent) : Prop :=
  (p.1 = .ok () → p.2.count .completeMU = 1 ∧ p.2.count .abortMU = 0) ∧
  (∀ e, p.1 = .error e → p.2.count .abortMU = 0 ∧ p.2.count .completeMU ≤ 1 ∧
    (p.2.count .completeMU = 1 → complete_outcome dry_run complete_res = .error e))

theorem terminal_spec_prefix (dry_run : Bool) (complete_res : Except String Unit)
    (pre : List UploadEvent) (res : Except String Unit × List UploadEvent)
    (hc : pre.count .completeMU = 0) (ha : pre.count .abortMU = 0)
    (h : terminal_spec dry_run complete_res res) :
    terminal_spec dry_run complete_res (res.1, pre ++ res.2) := by
  obtain ⟨h1, h2⟩ := h
  constructor
  · intro hok
    obtain ⟨hx, hy⟩ := h1 hok
    simp only [List.count_append, hc, ha, hx, hy]
    exact ⟨trivial, trivial⟩
  · intro e he
    obtain ⟨hx, hy, hz⟩ := h2 e he
    simp only [List.count_append, hc, ha, Nat.zero_add]
    exact ⟨hx, hy, hz⟩

theorem windows_then_complete_terminal_spec (dry_run auto : Bool)
    (profile : AutoProfile) (part : ℕ → Except String String)
    (win_metrics : ℕ → WindowMetrics) (complete_res : Except String Unit)
    (max_auto : ℕ) (hmax : 1 ≤ max_auto) (content_length part_size : ℤ)
    (hps : 0 < part_size) (target_concurrency : ℕ) (htc : 1 ≤ target_concurrency)
    (next_part_number : ℕ) (next_start_byte : ℤ) :
    terminal_spec dry_run complete_res
      (windows_then_complete dry_run auto profile part win_metrics complete_res
        max_auto hmax content_length part_size hps target_concurrency htc
        next_part_number next_start_byte) :=
  windows_then_complete_spec dry_run auto profile part win_metrics complete_res
    max_auto hmax content_length part_size hps target_concurrency htc
    next_part_number next_start_byte

theorem multipart_body_terminal_spec (dry_run auto : Bool)
    (profile : AutoProfile) (same_region : Bool)
    (part : ℕ → Except String String) (part_seconds : ℕ → ℚ)
    (win_metrics : ℕ → WindowMetrics) (complete_res : Except String Unit)
    (probe_parts max_auto : ℕ) (hmax : 1 ≤ max_auto)
    (content_length part_size : ℤ) (hps : 0 < part_size)
    (target_concurrency : ℕ) (htc : 1 ≤ target_concurrency) :
    terminal_spec dry_run complete_res
      (multipart_body dry_run auto profile same_region part part_seconds
        win_metrics complete_res probe_parts max_auto hmax content_length
        part_size hps target_concurrency htc) := by
  have hprc := probe_loop_no_terminal dry_run part part_seconds content_length
    part_size .completeMU (by intro n; simp)
    (min probe_parts ((content_length + part_size - 1) / part_size).toNat) 1 0 0 0
  have hpra := probe_loop_no_terminal dry_run part part_seconds content_length
    part_size .abortMU (by intro n; simp)
    (min probe_parts ((content_length + part_size - 1) / part_size).toNat) 1 0 0 0
  unfold multipart_body
  split_ifs with hpro
  · cases hst : (probe_loop dry_run part part_seconds content_length part_size
      (min probe_parts ((content_length + part_size - 1) / part_size).toNat)
      1 0 0 0).res with
    | error e =>
      simp only [hst]
      refine ⟨(fun h => by cases h), fun e2 he2 => ?_⟩
      dsimp only at he2 ⊢
      cases he2
      exact ⟨hpra, by omega, fun h1 => by omega⟩
    | ok u =>
      simp only [hst]
      split_ifs with hret
      · exact terminal_spec_prefix dry_run complete_res _ _ hprc hpra
          (windows_then_complete_terminal_spec dry_run auto profile part
            win_metrics complete_res max_auto hmax content_length _ _
            target_concurrency htc _ _)
      · exact terminal_spec_prefix dry_run complete_res _ _ hprc hpra
          (windows_then_complete_terminal_spec dry_run auto profile part
            win_metrics complete_res max_auto hmax content_length part_size hps
            target_concurrency htc _ _)
  · exact windows_then_complete_terminal_spec dry_run auto profile part
      win_metrics complete_res max_auto hmax content_length part_size hps
      target_concurrency htc 1 0

/-- C1 (amended): for every engine invocation that reaches an opened
multipart upload, at least one terminal operation is invoked for that
upload id before `copy_file` returns, and exactly one of
`complete_multipart_upload` / `abort_multipart_upload` — except when
`complete_multipart_upload` itself fails, in which case
`abort_multipart_upload` is additionally invoked for the same id.  On
success, complete is invoked exactly once and abort never; on failure,
abort is invoked exactly once, complete at most once and only when
completion itself produced the returned error.  The abort call is
best-effort: its outcome (`abort_res`) never influences the phase, so its
failure cannot replace the original error. -/
theorem c1_lifecycle_terminalization
    (dry_run auto : Bool) (profile : AutoProfile) (same_region : Bool)
    (part : ℕ → Except String String) (part_seconds : ℕ → ℚ)
    (win_metrics : ℕ → WindowMetrics) (complete_res abort_res : Except String Unit)
    (probe_parts max_auto : ℕ) (hmax : 1 ≤ max_auto)
    (content_length part_size : ℤ) (hps : 0 < part_size)
    (target_concurrency : ℕ) (htc : 1 ≤ target_concurrency) :
    ((multipart_phase dry_run auto profile same_region part part_seconds
        win_metrics complete_res abort_res probe_parts max_auto hmax
        content_length part_size hps target_concurrency htc).1 = .ok () →
      (multipart_phase dry_run auto profile same_region part part_seconds
        win_metrics complete_res abort_res probe_parts max_auto hmax
        content_length part_size hps target_concurrency htc).2.count
          .completeMU = 1 ∧
      (multipart_phase dry_run auto profile same_region part part_seconds
        win_metrics complete_res abort_res probe_parts max_auto hmax
        content_length part_size hps target_concurrency htc).2.count
          .abortMU = 0) ∧
    (∀ e, (multipart_phase dry_run auto profile same_region part part_seconds
        win_metrics complete_res abort_res probe_parts max_auto hmax
        content_length part_size hps target_concurrency htc).1 = .error e →
      (multipart_phase dry_run auto profile same_region part part_seconds
        win_metrics complete_res abort_res probe_parts max_auto hmax
        content_length part_size hps target_concurrency htc).2.count
          .abortMU = 1 ∧
      (multipart_phase dry_run auto profile same_region part part_seconds
        win_metrics complete_res abort_res probe_parts max_auto hmax
        content_length part_size hps target_concurrency htc).2.count
          .completeMU ≤ 1 ∧
      ((multipart_phase dry_run auto profile same_region part part_seconds
        win_metrics complete_res abort_res probe_parts max_auto hmax
        content_length part_size hps target_concurrency htc).2.count
          .completeMU = 1 →
        complete_outcome dry_run complete_res = .error e)) ∧
    (∀ abort_res2, multipart_phase dry_run auto profile same_region part
        part_seconds win_metrics complete_res abort_res2 probe_parts max_auto
        hmax content_length part_size hps target_concurrency htc =
      multipart_phase dry_run auto profile same_region part part_seconds
        win_metrics complete_res abort_res probe_parts max_auto hmax
        content_length part_size hps target_concurrency htc) := by
  have hbody := multipart_body_terminal_spec dry_run auto profile same_region
    part part_seconds win_metrics complete_res probe_parts max_auto hmax
    content_length part_size hps target_concurrency htc
  unfold multipart_phase
  cases hb : multipart_body dry_run auto profile same_region part part_seconds
    win_metrics complete_res probe_parts max_auto hmax content_length part_size
    hps target_concurrency htc with
  | mk r evs =>
    rw [hb] at hbody
    obtain ⟨h1, h2⟩ := hbody
    cases r with
    | ok u =>
      refine ⟨fun _ => ?_, (fun e he => by cases he), fun ar2 => rfl⟩
      have := h1 (by cases u; rfl)
      simpa using this
    | error e =>
      refine ⟨(fun hok => by cases hok), fun e2 he2 => ?_, fun ar2 => rfl⟩
      dsimp only at he2 ⊢
      cases he2
      obtain ⟨hx, hy, hz⟩ := h2 e rfl
      refine ⟨?_, ?_, ?_⟩
      · simp [List.count_append, List.count_cons, hx]
      · simp only [List.count_append, List.count_cons, List.count_nil]
        simpa using hy
      · intro h1c
        apply hz
        simpa [List.count_append, List.count_cons] using h1c

/-- C1 counterexample: with a single successfully copied part and a
failing `complete_multipart_upload`, *both* terminal operations are
invoked for the upload id — complete (which fails) and then abort from
the cleanup path — refuting "exactly one of complete_multipart_upload or
abort_multipart_upload is invoked" as the claim states it. -/
theorem c1_counterexample :
    (multipart_phase false false .Balanced false (fun _ => Except.ok "e")
        (fun _ => 1) (fun _ => ⟨1, 1, false⟩) (.error "complete failed")
        (.ok ()) 0 1 (by decide) 1 5242880 (by decide) 1
        (by decide)).2.count .completeMU = 1 ∧
      (multipart_phase false false .Balanced false (fun _ => Except.ok "e")
        (fun _ => 1) (fun _ => ⟨1, 1, false⟩) (.error "complete failed")
        (.ok ()) 0 1 (by decide) 1 5242880 (by decide) 1
        (by decide)).2.count .abortMU = 1 := by
  have hw : window_loop false false .Balanced (fun _ => Except.ok "e")
      (fun _ => ⟨1, 1, false⟩) 1 (by decide) 1 5242880 (by decide) 1 (by decide)
      0 1 0 = (.ok (), [.uploadPart 1]) := by
    rw [window_loop, dif_pos (by norm_num : (0:ℤ) < (1:ℤ))]
    rw [show schedule_batch 1 5242880 1 1 0 = ([(1, 1)], 2, 1) from rfl]
    dsimp only
    rw [show run_window_result false (fun _ => Except.ok "e") [(1, 1)] =
      Except.ok () from rfl]
    dsimp only
    rw [window_loop, dif_neg (by norm_num : ¬ ((1:ℤ) < (1:ℤ)))]
    rfl
  have h1 : multipart_phase false false .Balanced false (fun _ => Except.ok "e")
      (fun _ => 1) (fun _ => ⟨1, 1, false⟩) (.error "complete failed") (.ok ())
      0 1 (by decide) 1 5242880 (by decide) 1 (by decide) =
      (.error "complete failed",
        [.uploadPart 1, .completeMU, .abortMU]) := by
    simp only [multipart_phase, multipart_body, windows_then_complete]
    rw [if_neg (by simp)]
    rw [hw]
    rfl
  rw [h1]
  decide


/-- C1 witness: the abort outcome never changes the phase result — the
phase with a failing abort equals the phase with a successful abort. -/
theorem c1_lifecycle_terminalization_witness :
    multipart_phase false false .Balanced false (fun _ => Except.ok "e")
        (fun _ => 1) (fun _ => ⟨1, 1, false⟩) (.ok ()) (.error "abort failed")
        0 1 (by decide) 1 5242880 (by decide) 1 (by decide) =
      multipart_phase false false .Balanced false (fun _ => Except.ok "e")
        (fun _ => 1) (fun _ => ⟨1, 1, false⟩) (.ok ()) (.ok ()) 0 1 (by decide)
        1 5242880 (by decide) 1 (by decide) :=
  (c1_lifecycle_terminalization false false .Balanced false
    (fun _ => Except.ok "e") (fun _ => 1) (fun _ => ⟨1, 1, false⟩) (.ok ())
    (.ok ()) 0 1 (by decide) 1 5242880 (by decide) 1
    (by decide)).2.2 (.error "abort failed")

end S3LargeCopy
